import Mathlib

/-!
Verification of the validation-rule contract of `social_insecurity/forms.py`.

The repository declares WTForms form classes whose fields carry ordered lists
of validators.  The validator declarations, the configuration constants and
the custom validator `validate_not_empty` are translated from
`src/social_insecurity/forms.py`.  The evaluation engine itself (how a list of
rules is run over a submitted value) lives in the third-party framework and is
not part of the repository source; it is modelled from the specification's
"Field Validation Engine" contract (spec.md section 4.1).

Submitted text is embedded as `List Char` (one entry per character), files as
a filename plus a byte size, and an unsupplied value as `Value.absent`.
-/

namespace SocialInsecurity

/-- A submitted field value: absent (not supplied), a text value, or an
uploaded file described by its filename and byte size. -/
inductive Value where
  | absent : Value
  | text : List Char → Value
  | file : List Char → Nat → Value
deriving DecidableEq

/-- Python's `str.strip()` on the character-list embedding: drop leading and
trailing whitespace (whitespace modelled by `Char.isWhitespace`). -/
def strip (s : List Char) : List Char :=
  ((s.dropWhile Char.isWhitespace).reverse.dropWhile Char.isWhitespace).reverse

/-- Configuration constant from forms.py: `max_post_length = 280`. -/
def max_post_length : Nat := 280

/-- Configuration constant from forms.py: `max_comment_length = 150`. -/
def max_comment_length : Nat := 150

/-- Configuration constant from forms.py: `max_username_length = 25`. -/
def max_username_length : Nat := 25

/-- Configuration constant from forms.py: `min_username_length = 8`. -/
def min_username_length : Nat := 8

/-- Configuration constant from forms.py: `max_password_length = 20`. -/
def max_password_length : Nat := 20

/-- Configuration constant from forms.py: `min_password_length = 8`. -/
def min_password_length : Nat := 8

/-- Configuration constant from forms.py: `max_file_size = 5 * 1024 * 1024`. -/
def max_file_size : Nat := 5 * 1024 * 1024

/-- Configuration constant from forms.py:
`allowed_extensions = \x7b'png', 'jpg', 'jpeg'\x7d`. -/
def allowed_extensions : List (List Char) := ["png".data, "jpg".data, "jpeg".data]

/-- Translation of `validate_not_empty` from forms.py: it raises
`ValidationError` when `not field.data or not field.data.strip()`, i.e. when
the value is missing, is the empty string, or strips to the empty string. -/
def validate_not_empty (v : Value) : Bool :=
  match v with
  | .absent => true
  | .text s => s.isEmpty || (strip s).isEmpty
  | .file _ _ => false

/-- The message raised by `validate_not_empty` in forms.py. -/
def notBlankMessage : String := "This field cannot be empty or contain only whitespace"

/-- A constraint rule attached to a field (spec.md section 3, `ConstraintRule`).
Each variant corresponds to one validator used in forms.py: `DataRequired`,
`validate_not_empty`, `Length`, `Regexp`, `EqualTo`, `FileAllowed`, `FileSize`.
A `Pattern` regex is embedded as the predicate it denotes on character lists. -/
inductive ConstraintRule where
  | required : String → ConstraintRule
  | notBlank : String → ConstraintRule
  | lengthRange : Nat → Nat → String → ConstraintRule
  | pattern : (List Char → Bool) → String → ConstraintRule
  | equalToField : String → String → ConstraintRule
  | fileExtension : List (List Char) → String → ConstraintRule
  | fileSizeMax : Nat → String → ConstraintRule

/-- The lowercased extension of a filename: the segment after the last dot,
mapped through `Char.toLower` (the spec's case-insensitive comparison). -/
def fileExt (name : List Char) : List Char :=
  ((name.reverse.takeWhile (fun c => c ≠ '.')).reverse).map Char.toLower

/-- Modelled from the spec: the per-rule violation predicate of the Field
Validation Engine (spec.md section 4.1 table); the engine implementation is
framework code absent from src/.  Returns the rule's message when the rule is
violated on the given value, `none` when it is satisfied.  `siblings` is the
read-only mapping of the other field values, used only by `equalToField`.
The `notBlank` case is the source's `validate_not_empty`. -/
def ruleViolation (siblings : String → Option Value) (v : Value) :
    ConstraintRule → Option String
  | .required msg => match v with
      | .absent => some msg
      | _ => none
  | .notBlank msg => if validate_not_empty v then some msg else none
  | .lengthRange mn mx msg => match v with
      | .text s =>
          if (strip s).length < mn || mx < (strip s).length then some msg else none
      | _ => none
  | .pattern p msg => match v with
      | .text s => if p s then none else some msg
      | _ => none
  | .equalToField other msg => match v with
      | .text s => match siblings other with
          | some (.text t) => if s = t then none else some msg
          | _ => some msg
      | _ => none
  | .fileExtension allowed msg => match v with
      | .file name _ => if allowed.contains (fileExt name) then none else some msg
      | _ => none
  | .fileSizeMax mx msg => match v with
      | .file _ size => if mx < size then some msg else none
      | _ => none

/-- Whether a rule is the Required rule. -/
def isRequired : ConstraintRule → Bool
  | .required _ => true
  | _ => false

/-- Modelled from the spec: which rules "assume presence" of a value
(spec.md section 4.1): every rule except Required itself is skipped once a
Required rule has failed on the field. -/
def assumesPresence : ConstraintRule → Bool
  | .required _ => false
  | _ => true

/-- Modelled from the spec: the Field Validation Engine's evaluation loop
(spec.md section 4.1).  Rules run in declaration order, every violation
appends its message, and once a Required rule has failed the later rules that
assume presence are skipped.  The engine implementation is framework code
absent from src/. -/
def runRules (siblings : String → Option Value) (v : Value) :
    List ConstraintRule → Bool → List String
  | [], _ => []
  | r :: rs, requiredFailed =>
      if requiredFailed && assumesPresence r then
        runRules siblings v rs requiredFailed
      else
        match ruleViolation siblings v r with
        | some m => m :: runRules siblings v rs (requiredFailed || isRequired r)
        | none => runRules siblings v rs requiredFailed

/-- Modelled from the spec: `validate(field, siblingValues)` returns the
ordered error list of a field (spec.md section 4.1); the field is valid iff
the list is empty. -/
def validateField (siblings : String → Option Value) (rules : List ConstraintRule)
    (v : Value) : List String :=
  runRules siblings v rules false

/-- The sibling mapping of a form none of whose claims need cross-field data. -/
def noSiblings : String → Option Value := fun _ => none

/-- Default message of the framework's `DataRequired` validator (used where
forms.py passes no message; its text is not load-bearing for any claim). -/
def requiredDefaultMessage : String := "This field is required."

/-- Default message of the framework's `Length` validator (used where forms.py
passes no message; its text is not load-bearing for any claim). -/
def lengthDefaultMessage (mn mx : Nat) : String :=
  "Field must be between " ++ toString mn ++ " and " ++ toString mx ++
    " characters long."

/-- The regex `[a-zA-Z0-9_]+` anchored at both ends, from the username
fields of forms.py. -/
def usernamePattern (s : List Char) : Bool :=
  !s.isEmpty && s.all (fun c => c.isAlpha || c.isDigit || c = '_')

/-- The regex `[a-zA-Z-]+` anchored at both ends, from the name fields of
forms.py. -/
def namePattern (s : List Char) : Bool :=
  !s.isEmpty && s.all (fun c => c.isAlpha || c = '-')

/-- `LoginForm.username` validators from forms.py: `DataRequired()`,
`Length(min=3, max=30)`, `Regexp(r'^[a-zA-Z0-9_]+$', ...)`. -/
def LoginForm.username : List ConstraintRule :=
  [.required requiredDefaultMessage,
   .lengthRange 3 30 (lengthDefaultMessage 3 30),
   .pattern usernamePattern
     "Username must contain only letters, numbers, and underscores."]

/-- `LoginForm.password` validators from forms.py: `DataRequired()`,
`Length(min=6, max=128)`. -/
def LoginForm.password : List ConstraintRule :=
  [.required requiredDefaultMessage,
   .lengthRange 6 128 (lengthDefaultMessage 6 128)]

/-- `RegisterForm.first_name` validators from forms.py. -/
def RegisterForm.first_name : List ConstraintRule :=
  [.required requiredDefaultMessage,
   .lengthRange 1 50 (lengthDefaultMessage 1 50),
   .pattern namePattern "First name must contain only letters and hyphens."]

/-- `RegisterForm.last_name` validators from forms.py. -/
def RegisterForm.last_name : List ConstraintRule :=
  [.required requiredDefaultMessage,
   .lengthRange 1 50 (lengthDefaultMessage 1 50),
   .pattern namePattern "Last name must contain only letters and hyphens."]

/-- `RegisterForm.username` validators from forms.py: `DataRequired()`,
`Length(min=3, max=30)`, `Regexp(r'^[a-zA-Z0-9_]+$', ...)`. -/
def RegisterForm.username : List ConstraintRule :=
  [.required requiredDefaultMessage,
   .lengthRange 3 30 (lengthDefaultMessage 3 30),
   .pattern usernamePattern
     "Username must contain only letters, numbers, and underscores."]

/-- `RegisterForm.password` validators from forms.py: `DataRequired()`,
`Length(min=6, max=128)`. -/
def RegisterForm.password : List ConstraintRule :=
  [.required requiredDefaultMessage,
   .lengthRange 6 128 (lengthDefaultMessage 6 128)]

/-- `RegisterForm.confirm_password` validators from forms.py:
`DataRequired()`, `EqualTo('password', message="Passwords must match.")`. -/
def RegisterForm.confirm_password : List ConstraintRule :=
  [.required requiredDefaultMessage,
   .equalToField "password" "Passwords must match."]

/-- `PostForm.content` validators from forms.py:
`DataRequired(message="Post content cannot be empty")`, `validate_not_empty`,
`Length(min=1, max=max_post_length, message=f"Post must be between 1 and
\x7bmax_post_length\x7d characters")`. -/
def PostForm.content : List ConstraintRule :=
  [.required "Post content cannot be empty",
   .notBlank notBlankMessage,
   .lengthRange 1 max_post_length "Post must be between 1 and 280 characters"]

/-- `PostForm.image` validators from forms.py:
`FileAllowed(list(allowed_extensions), ...)`,
`FileSize(max_size=max_file_size, ...)`; the `FileSize` message interpolates
`max_file_size // (1024 * 1024) = 5`. -/
def PostForm.image : List ConstraintRule :=
  [.fileExtension allowed_extensions "Only png, jpg, jpeg files are allowed",
   .fileSizeMax max_file_size "File size must be less than 5MB"]

/-- `CommentsForm.comment` validators from forms.py: `DataRequired()`,
`validate_not_empty`, `Length(min=1, max=max_comment_length)`. -/
def CommentsForm.comment : List ConstraintRule :=
  [.required requiredDefaultMessage,
   .notBlank notBlankMessage,
   .lengthRange 1 max_comment_length (lengthDefaultMessage 1 max_comment_length)]

/-- `FriendsForm.username` from forms.py carries no validators. -/
def FriendsForm.username : List ConstraintRule := []

/-- `ProfileForm.education` from forms.py carries no validators. -/
def ProfileForm.education : List ConstraintRule := []

/-- `ProfileForm.employment` from forms.py carries no validators. -/
def ProfileForm.employment : List ConstraintRule := []

/-- `ProfileForm.music` from forms.py carries no validators. -/
def ProfileForm.music : List ConstraintRule := []

/-- `ProfileForm.movie` from forms.py carries no validators. -/
def ProfileForm.movie : List ConstraintRule := []

/-- `ProfileForm.nationality` from forms.py carries no validators. -/
def ProfileForm.nationality : List ConstraintRule := []

/-- The sibling mapping seen by `RegisterForm.confirm_password` when the
password field holds `pw`. -/
def registerSiblings (pw : List Char) : String → Option Value :=
  fun name => if name = "password" then some (Value.text pw) else none

set_option maxRecDepth 8000

/-! ### Helper lemmas about the engine -/

/-- Stripping a string of whitespace characters leaves nothing. -/
theorem strip_eq_nil_of_whitespace (s : List Char)
    (h : ∀ c ∈ s, c.isWhitespace) : strip s = [] := by
  unfold strip
  rw [List.dropWhile_eq_nil_iff.mpr h]
  rfl

/-- Stripping a run of the letter `a` changes nothing. -/
theorem strip_replicate_a (n : Nat) :
    strip (List.replicate n 'a') = List.replicate n 'a' := by
  have hdrop : ∀ m : Nat,
      (List.replicate m 'a').dropWhile Char.isWhitespace = List.replicate m 'a' := by
    intro m
    cases m with
    | zero => rfl
    | succ k =>
        rw [List.replicate_succ, List.dropWhile_cons_of_neg (by decide)]
  unfold strip
  rw [hdrop n, List.reverse_replicate, hdrop n, List.reverse_replicate]

/-- The Required rule is the only rule that can fire on a present value's
absence check: on any present value it is satisfied. -/
theorem ruleViolation_eq_none_of_isRequired (siblings : String → Option Value)
    (v : Value) (r : ConstraintRule) (hv : v ≠ Value.absent)
    (hr : isRequired r = true) : ruleViolation siblings v r = none := by
  cases r <;> simp [isRequired] at hr
  cases v with
  | absent => exact absurd rfl hv
  | text s => rfl
  | file name size => rfl

/-- On a present value the engine evaluates every rule and returns the
messages of the violated rules, in declaration order. -/
theorem runRules_eq_filterMap (siblings : String → Option Value) (v : Value)
    (hv : v ≠ Value.absent) :
    ∀ rules : List ConstraintRule,
      runRules siblings v rules false = rules.filterMap (ruleViolation siblings v) := by
  intro rules
  induction rules with
  | nil => rfl
  | cons r rs ih =>
      cases hviol : ruleViolation siblings v r with
      | none => simp [runRules, List.filterMap_cons, hviol, ih]
      | some m =>
          have hreq : isRequired r = false := by
            cases hr : isRequired r
            · rfl
            · exfalso
              rw [ruleViolation_eq_none_of_isRequired siblings v r hv hr] at hviol
              exact Option.noConfusion hviol
          simp [runRules, List.filterMap_cons, hviol, hreq, ih]

/-- Once Required has failed, a block of rules that all assume presence is
skipped entirely. -/
theorem runRules_skip_all (siblings : String → Option Value) (v : Value) :
    ∀ rules : List ConstraintRule, (∀ r ∈ rules, assumesPresence r = true) →
      runRules siblings v rules true = [] := by
  intro rules
  induction rules with
  | nil => intro _; rfl
  | cons r rs ih =>
      intro h
      rw [runRules, if_pos (by simp [h r (List.mem_cons_self r rs)])]
      exact ih fun q hq => h q (List.mem_cons_of_mem r hq)

/-- The number of collected messages equals the number of violated rules. -/
theorem length_filterMap_countP {α β : Type} (f : α → Option β) :
    ∀ l : List α, (l.filterMap f).length = l.countP fun a => (f a).isSome := by
  intro l
  induction l with
  | nil => rfl
  | cons a l ih =>
      rw [List.filterMap_cons, List.countP_cons]
      cases hfa : f a <;> simp [hfa, ih]

/-! ### Claim theorems -/

/-- C1: the claim states that the username length rule of the login and
registration forms uses min=8 and max=25 inclusive, so that an 8-character
username passes and a 7-character one fails.  The code declares the constants
`min_username_length = 8` and `max_username_length = 25` but both username
fields actually use `Length(min=3, max=30)`: the 7-character username
"abcdefg" passes both forms' validation with zero errors (and an 8-character
one also passes), contradicting the claim and the code's own constants. -/
theorem C1_username_length_code_bug :
    validateField noSiblings RegisterForm.username (Value.text "abcdefg".data) = [] ∧
    validateField noSiblings LoginForm.username (Value.text "abcdefg".data) = [] ∧
    validateField noSiblings RegisterForm.username (Value.text "abcdefgh".data) = [] ∧
    min_username_length = 8 ∧ max_username_length = 25 :=
  ⟨by decide, by decide, by decide, rfl, rfl⟩

/-- C2: a Required rule is violated exactly when the value is absent; a
present value, even one that is blank, never violates Required (on the
comment field, the whitespace value " " triggers other messages but not the
Required one, while the absent value yields exactly the Required message). -/
theorem C2_required_violated_iff_absent (siblings : String → Option Value)
    (msg : String) (s : List Char) :
    ruleViolation siblings (Value.text s) (ConstraintRule.required msg) = none ∧
    ruleViolation siblings Value.absent (ConstraintRule.required msg) = some msg ∧
    requiredDefaultMessage ∉
      validateField noSiblings CommentsForm.comment (Value.text " ".data) ∧
    validateField noSiblings CommentsForm.comment Value.absent =
      [requiredDefaultMessage] :=
  ⟨rfl, rfl, by decide, by decide⟩

/-- Witness for C2 at concrete inputs. -/
theorem C2_required_violated_iff_absent_witness :
    ruleViolation noSiblings (Value.text " ".data) (ConstraintRule.required requiredDefaultMessage) = none ∧
    ruleViolation noSiblings Value.absent (ConstraintRule.required requiredDefaultMessage) =
      some requiredDefaultMessage ∧
    requiredDefaultMessage ∉
      validateField noSiblings CommentsForm.comment (Value.text " ".data) ∧
    validateField noSiblings CommentsForm.comment Value.absent =
      [requiredDefaultMessage] :=
  C2_required_violated_iff_absent noSiblings requiredDefaultMessage " ".data

/-- C3: on a present value the engine evaluates every declared rule with no
short-circuit and returns exactly the violated rules' messages in declaration
order; when Required fails (the value is absent), the later rules that assume
presence are skipped and only the Required message is reported. -/
theorem C3_evaluation_order (siblings : String → Option Value)
    (rules rest : List ConstraintRule) (v : Value) (msg : String)
    (hv : v ≠ Value.absent) (hrest : ∀ r ∈ rest, assumesPresence r = true) :
    validateField siblings rules v = rules.filterMap (ruleViolation siblings v) ∧
    validateField siblings (ConstraintRule.required msg :: rest) Value.absent =
      [msg] := by
  constructor
  · exact runRules_eq_filterMap siblings v hv rules
  · show msg :: runRules siblings Value.absent rest true = [msg]
    rw [runRules_skip_all siblings Value.absent rest hrest]

/-- Witness for C3 at the post-content field and a concrete skipped tail. -/
theorem C3_evaluation_order_witness :
    validateField noSiblings PostForm.content (Value.text "hello".data) =
      PostForm.content.filterMap
        (ruleViolation noSiblings (Value.text "hello".data)) ∧
    validateField noSiblings
      (ConstraintRule.required requiredDefaultMessage ::
        [ConstraintRule.notBlank notBlankMessage]) Value.absent =
      [requiredDefaultMessage] :=
  C3_evaluation_order noSiblings PostForm.content
    [ConstraintRule.notBlank notBlankMessage] (Value.text "hello".data)
    requiredDefaultMessage (by decide) (by decide)

/-- C4 counterexample: the claim states that content = "" yields the error
"Post content cannot be empty".  The empty string is a present (supplied)
value, so under the engine contract the Required rule does not fire on it:
the errors for "" are the NotBlank message and the length-range message, and
"Post content cannot be empty" is not among them. -/
theorem C4_empty_post_counterexample :
    "Post content cannot be empty" ∉
      validateField noSiblings PostForm.content (Value.text "".data) ∧
    validateField noSiblings PostForm.content (Value.text "".data) =
      [notBlankMessage, "Post must be between 1 and 280 characters"] :=
  ⟨by decide, by decide⟩

/-- C4 amended: content = "" (present but empty) yields the NotBlank message
and the length-range message; 281 'a' characters yield exactly the
length-range error; "hello" yields zero errors; the message "Post content
cannot be empty" is produced exactly when the content value is absent. -/
theorem C4_post_content_cases :
    validateField noSiblings PostForm.content (Value.text "".data) =
      [notBlankMessage, "Post must be between 1 and 280 characters"] ∧
    validateField noSiblings PostForm.content
        (Value.text (List.replicate 281 'a')) =
      ["Post must be between 1 and 280 characters"] ∧
    validateField noSiblings PostForm.content (Value.text "hello".data) = [] ∧
    validateField noSiblings PostForm.content Value.absent =
      ["Post content cannot be empty"] :=
  ⟨by decide, by decide, by decide, by decide⟩

/-- C5: with password = "abc123", confirm_password = "abc123" validates with
zero errors, while confirm_password = "abc124" yields exactly one error,
"Passwords must match."; in general, on a present text value the engine emits
exactly one message per violated rule, so the number of reported errors is
the number of violated rules. -/
theorem C5_confirm_password_equal_to :
    validateField (registerSiblings "abc123".data) RegisterForm.confirm_password
      (Value.text "abc123".data) = [] ∧
    validateField (registerSiblings "abc123".data) RegisterForm.confirm_password
      (Value.text "abc124".data) = ["Passwords must match."] ∧
    ∀ (siblings : String → Option Value) (rules : List ConstraintRule)
      (s : List Char),
      (validateField siblings rules (Value.text s)).length =
        rules.countP fun r => (ruleViolation siblings (Value.text s) r).isSome := by
  refine ⟨by decide, by decide, ?_⟩
  intro siblings rules s
  rw [show validateField siblings rules (Value.text s) =
      runRules siblings (Value.text s) rules false from rfl,
    runRules_eq_filterMap siblings (Value.text s) (fun h => Value.noConfusion h) rules]
  exact length_filterMap_countP (ruleViolation siblings (Value.text s)) rules

/-- C6: the byte bound of the post image's file-size rule is inclusive: a
file of exactly `max_file_size = 5*1024*1024` bytes passes the image field's
validation, and a file one byte larger violates it. -/
theorem C6_file_size_inclusive :
    validateField noSiblings PostForm.image
      (Value.file "photo.png".data (5 * 1024 * 1024)) = [] ∧
    validateField noSiblings PostForm.image
      (Value.file "photo.png".data (5 * 1024 * 1024 + 1)) =
      ["File size must be less than 5MB"] ∧
    max_file_size = 5 * 1024 * 1024 :=
  ⟨by decide, by decide, rfl⟩

/-- C7: extension checking on the post image is case-insensitive over the
allowed set \x7bpng, jpg, jpeg\x7d: "photo.JPG" passes, "photo.GIF" is
rejected, and the extension rule never fires when no file was supplied. -/
theorem C7_file_extension_case_insensitive :
    validateField noSiblings PostForm.image (Value.file "photo.JPG".data 100) = [] ∧
    validateField noSiblings PostForm.image (Value.file "photo.GIF".data 100) =
      ["Only png, jpg, jpeg files are allowed"] ∧
    validateField noSiblings PostForm.image Value.absent = [] ∧
    ∀ (siblings : String → Option Value) (allowed : List (List Char)) (msg : String),
      ruleViolation siblings Value.absent
        (ConstraintRule.fileExtension allowed msg) = none :=
  ⟨by decide, by decide, by decide, fun _ _ _ => rfl⟩

/-- C8: a present value made only of whitespace strips to length zero,
violates the NotBlank rule (`validate_not_empty`), and the blank-field
message appears in the error list of both text fields that carry the rule
(post content and comment). -/
theorem C8_notblank_whitespace (s : List Char) (hw : ∀ c ∈ s, c.isWhitespace) :
    (strip s).length = 0 ∧
    validate_not_empty (Value.text s) = true ∧
    ruleViolation noSiblings (Value.text s)
      (ConstraintRule.notBlank notBlankMessage) = some notBlankMessage ∧
    notBlankMessage ∈
      validateField noSiblings CommentsForm.comment (Value.text s) ∧
    notBlankMessage ∈
      validateField noSiblings PostForm.content (Value.text s) := by
  have hstrip : strip s = [] := strip_eq_nil_of_whitespace s hw
  have hne : validate_not_empty (Value.text s) = true := by
    simp [validate_not_empty, hstrip]
  refine ⟨by rw [hstrip]; rfl, hne, ?_, ?_, ?_⟩
  · simp [ruleViolation, hne]
  · rw [show validateField noSiblings CommentsForm.comment (Value.text s) =
        runRules noSiblings (Value.text s) CommentsForm.comment false from rfl,
      runRules_eq_filterMap noSiblings (Value.text s) (fun h => Value.noConfusion h)]
    simp [CommentsForm.comment, List.filterMap_cons, ruleViolation, hne, hstrip]
  · rw [show validateField noSiblings PostForm.content (Value.text s) =
        runRules noSiblings (Value.text s) PostForm.content false from rfl,
      runRules_eq_filterMap noSiblings (Value.text s) (fun h => Value.noConfusion h)]
    simp [PostForm.content, List.filterMap_cons, ruleViolation, hne, hstrip]

/-- Witness for C8 at the single-space value. -/
theorem C8_notblank_whitespace_witness :
    (∀ c ∈ " ".data, c.isWhitespace) ∧
    ((strip " ".data).length = 0 ∧
      validate_not_empty (Value.text " ".data) = true ∧
      ruleViolation noSiblings (Value.text " ".data)
        (ConstraintRule.notBlank notBlankMessage) = some notBlankMessage ∧
      notBlankMessage ∈
        validateField noSiblings CommentsForm.comment (Value.text " ".data) ∧
      notBlankMessage ∈
        validateField noSiblings PostForm.content (Value.text " ".data)) :=
  ⟨by decide, C8_notblank_whitespace " ".data (by decide)⟩

/-- C9: every field declared with zero constraint rules — the friend-request
username and all profile text fields — validates with zero errors on every
value, including the empty string and the absent value. -/
theorem C9_no_rules_always_valid (siblings : String → Option Value) (v : Value) :
    validateField siblings FriendsForm.username v = [] ∧
    validateField siblings ProfileForm.education v = [] ∧
    validateField siblings ProfileForm.employment v = [] ∧
    validateField siblings ProfileForm.music v = [] ∧
    validateField siblings ProfileForm.movie v = [] ∧
    validateField siblings ProfileForm.nationality v = [] :=
  ⟨rfl, rfl, rfl, rfl, rfl, rfl⟩

/-- Witness for C9 at the empty-string value. -/
theorem C9_no_rules_always_valid_witness :
    validateField noSiblings FriendsForm.username (Value.text "".data) = [] ∧
    validateField noSiblings ProfileForm.education (Value.text "".data) = [] ∧
    validateField noSiblings ProfileForm.employment (Value.text "".data) = [] ∧
    validateField noSiblings ProfileForm.music (Value.text "".data) = [] ∧
    validateField noSiblings ProfileForm.movie (Value.text "".data) = [] ∧
    validateField noSiblings ProfileForm.nationality (Value.text "".data) = [] :=
  C9_no_rules_always_valid noSiblings (Value.text "".data)

/-- C10 counterexample: the claim states that one form enforces password
length in [6,128] and the other in [8,20].  In the code both the login and
the registration form validate the password with `Length(min=6, max=128)`:
passwords of length 21 and of length 7 — each outside [8,20] — pass both
forms with zero errors, so no form enforces the [8,20] range. -/
theorem C10_password_range_counterexample :
    validateField noSiblings LoginForm.password
      (Value.text (List.replicate 21 'a')) = [] ∧
    validateField noSiblings RegisterForm.password
      (Value.text (List.replicate 21 'a')) = [] ∧
    validateField noSiblings LoginForm.password
      (Value.text (List.replicate 7 'a')) = [] ∧
    validateField noSiblings RegisterForm.password
      (Value.text (List.replicate 7 'a')) = [] :=
  ⟨by decide, by decide, by decide, by decide⟩

/-- C10 amended: the password length bounds do not depend on the form; the
login and registration forms carry identical password rules enforcing length
in [6,128] inclusive (a password of `n` characters passes iff 6 ≤ n ≤ 128),
while the declared constants `min_password_length = 8` and
`max_password_length = 20` are unused by any field. -/
theorem C10_password_bounds_amended :
    LoginForm.password = RegisterForm.password ∧
    min_password_length = 8 ∧ max_password_length = 20 ∧
    ∀ n : Nat,
      (validateField noSiblings LoginForm.password
          (Value.text (List.replicate n 'a')) = [] ↔ 6 ≤ n ∧ n ≤ 128) := by
  refine ⟨rfl, rfl, rfl, ?_⟩
  intro n
  rw [show validateField noSiblings LoginForm.password
        (Value.text (List.replicate n 'a')) =
      runRules noSiblings (Value.text (List.replicate n 'a'))
        LoginForm.password false from rfl,
    runRules_eq_filterMap noSiblings (Value.text (List.replicate n 'a'))
      (fun h => Value.noConfusion h)]
  simp only [LoginForm.password, List.filterMap_cons, ruleViolation,
    strip_replicate_a, List.length_replicate]
  cases hb : decide (n < 6) || decide (128 < n) with
  | false =>
      simp at hb
      simp
      omega
  | true =>
      simp at hb
      simp
      omega

end SocialInsecurity
